import Mathlib

/-
Verification of the native capture-device layer of MaXUC-LibJitsi-Fork.

The development shallowly embeds three source files:
  src/native/macosx/coreaudio/maccoreaudio_util.c
  src/native/windows/directshow/DSManager.cpp
  src/native/windows/directshow/JavaLogger.h

JNI and COM calls are modelled by their observable outcomes: every fallible
native/managed call becomes a Bool (or small inductive) parameter recording
whether it succeeded, and the functions compute the resulting state,
reference-count ledger, and the data handed back.
-/

/-! ## The ATTACH/DETACH guard (maccoreaudio_util.c, lines 14-43)

The ATTACH macro calls GetEnv; on JNI_EDETACHED it tries
AttachCurrentThreadAsDaemon and, on success, sets envAttached = 1 and
shouldDetach = 1; on JNI_OK it sets envAttached = 1 only; on any other
result it sets neither.  The DETACH macro calls DetachCurrentThread
exactly when shouldDetach == 1. -/

/-- Outcome of the GetEnv call at the top of the ATTACH macro. -/
inductive GetEnvOutcome
  | jniOk
  | jniEdetached
  | jniOther
  deriving DecidableEq, Repr

/-- Flags produced by expanding the ATTACH macro: whether envAttached and
shouldDetach were set, and whether this expansion itself performed a
successful AttachCurrentThreadAsDaemon call. -/
structure AttachTrace where
  env : Bool
  shouldDetach : Bool
  performedAttach : Bool
  deriving DecidableEq, Repr

/-- The ATTACH macro.  getEnvRes is the GetEnv result; attachOk records
whether AttachCurrentThreadAsDaemon would return 0 on this thread. -/
def ATTACH (getEnvRes : GetEnvOutcome) (attachOk : Bool) : AttachTrace :=
  match getEnvRes with
  | .jniEdetached =>
      if attachOk then
        { env := true, shouldDetach := true, performedAttach := true }
      else
        { env := false, shouldDetach := false, performedAttach := false }
  | .jniOk => { env := true, shouldDetach := false, performedAttach := false }
  | .jniOther => { env := false, shouldDetach := false, performedAttach := false }

/-- The DETACH macro: the thread is detached exactly when shouldDetach is
set.  Takes the thread attachment state just before DETACH runs and returns
it just after. -/
def DETACH (t : AttachTrace) (attachedBefore : Bool) : Bool :=
  if t.shouldDetach then false else attachedBefore

/-- One full ATTACH ... DETACH bracket: attachment state of the thread after
the bracket, starting from attachedOnEntry.  A thread attached on entry has
GetEnv answer JNI_OK; getEnvRes is therefore an input tied to that state by
the caller of this model. -/
def guardBracket (attachedOnEntry : Bool) (getEnvRes : GetEnvOutcome)
    (attachOk : Bool) : Bool :=
  let t := ATTACH getEnvRes attachOk
  DETACH t (attachedOnEntry || t.performedAttach)

/-! ## MacCoreaudio_callbackMethod (maccoreaudio_util.c, lines 151-185)

The native buffer is a list of byte values; the managed callback is a
function giving the final contents of the managed jbyteArray after
CallVoidMethod returns.  NewByteArray/SetByteArrayRegion copy the native
buffer in; memcpy copies bufferLength bytes of the managed array back. -/

/-- MacCoreaudio_callbackMethod.  Returns the native buffer contents after
the call together with a flag recording whether the managed callback was
invoked. -/
def MacCoreaudio_callbackMethod (getEnvRes : GetEnvOutcome) (attachOk : Bool)
    (buffer : List Int) (cb : List Int → List Int) : List Int × Bool :=
  let t := ATTACH getEnvRes attachOk
  if t.env = false then
    (buffer, false)
  else
    let bufferBytes := buffer
    let managedFinal := cb bufferBytes
    (managedFinal.take buffer.length, true)

/-! ## MacCoreaudio_log (maccoreaudio_util.c, lines 294-333) and
JavaLogger::log (JavaLogger.h, lines 21-41) -/

/-- Observable effect of one logging call on the managed side: whether a
managed entry point was invoked, and whether it was invoked with a null
(unresolved) method identifier. -/
structure LogCall where
  invoked : Bool
  nullMethodID : Bool
  deriving DecidableEq, Repr

/-- MacCoreaudio_log.  After ATTACH, if FindClass succeeds the code fetches
the method id with GetStaticMethodID and then calls CallStaticVoidMethod
with that id unconditionally, with no null check on the id. -/
def MacCoreaudio_log (getEnvRes : GetEnvOutcome) (attachOk : Bool)
    (findClassOk getMethodOk : Bool) : LogCall :=
  let t := ATTACH getEnvRes attachOk
  if t.env = false then
    { invoked := false, nullMethodID := false }
  else if findClassOk then
    { invoked := true, nullMethodID := !getMethodOk }
  else
    { invoked := false, nullMethodID := false }

/-- JavaLogger::log.  Returns early (stderr only) when GetObjectClass or
GetMethodID fails; CallVoidMethod runs only with a resolved method id. -/
def JavaLogger_log (getClassOk getMethodOk : Bool) : LogCall :=
  if getClassOk = false then
    { invoked := false, nullMethodID := false }
  else if getMethodOk = false then
    { invoked := false, nullMethodID := false }
  else
    { invoked := true, nullMethodID := false }

/-! ## Hotplug globals (maccoreaudio_util.c, lines 56-57, 190-286) -/

/-- The two static globals (modelled as non-null flags) plus counters for
FindClass attempts and MacCoreaudio_initializeHotplug registrations. -/
structure HotplugState where
  devicesChangedCallbackClass : Bool
  devicesChangedCallbackMethodID : Bool
  findClassCalls : Nat
  registrations : Nat
  deriving DecidableEq, Repr

/-- The hotplug globals before JNI_OnLoad runs: both null, no calls made. -/
def hotplugStateAtLoad : HotplugState :=
  { devicesChangedCallbackClass := false
    devicesChangedCallbackMethodID := false
    findClassCalls := 0
    registrations := 0 }

/-- MacCoreaudio_initHotplug.  Inside ATTACH, guarded by a null check on
both globals; FindClass, NewGlobalRef and GetStaticMethodID are attempted
in that order, and only when all three succeed are both globals assigned
and MacCoreaudio_initializeHotplug called. -/
def MacCoreaudio_initHotplug (getEnvRes : GetEnvOutcome)
    (attachOk findClassOk globalRefOk getMethodOk : Bool)
    (s : HotplugState) : HotplugState :=
  let t := ATTACH getEnvRes attachOk
  if t.env = false then
    s
  else if s.devicesChangedCallbackClass = false
      && s.devicesChangedCallbackMethodID = false then
    let s1 := { s with findClassCalls := s.findClassCalls + 1 }
    if findClassOk then
      if globalRefOk then
        if getMethodOk then
          { devicesChangedCallbackClass := true
            devicesChangedCallbackMethodID := true
            findClassCalls := s1.findClassCalls
            registrations := s1.registrations + 1 }
        else s1
      else s1
    else s1
  else
    s

/-- MacCoreaudio_freeHotplug.  Calls MacCoreaudio_uninitializeHotplug, then
deletes the global ref when a context is available; on every path control
reaches EXIT_LABEL, which nulls both globals. -/
def MacCoreaudio_freeHotplug (getEnvRes : GetEnvOutcome) (attachOk : Bool)
    (s : HotplugState) : HotplugState :=
  { s with
    devicesChangedCallbackClass := false
    devicesChangedCallbackMethodID := false }

/-- MacCoreaudio_devicesChangedCallbackMethod: whether the managed static
callback is invoked, given the globals; the call fires only inside an
attached context and only when class and method id are both non-null. -/
def MacCoreaudio_devicesChangedCallbackMethod (getEnvRes : GetEnvOutcome)
    (attachOk : Bool) (s : HotplugState) : Bool :=
  let t := ATTACH getEnvRes attachOk
  if t.env = false then
    false
  else
    s.devicesChangedCallbackClass && s.devicesChangedCallbackMethodID

/-- JNI_OnLoad, restricted to its effect on the hotplug globals: it stores
the VM pointer and calls MacCoreaudio_initHotplug. -/
def JNI_OnLoad (getEnvRes : GetEnvOutcome)
    (attachOk findClassOk globalRefOk getMethodOk : Bool)
    (s : HotplugState) : HotplugState :=
  MacCoreaudio_initHotplug getEnvRes attachOk findClassOk globalRefOk
    getMethodOk s

/-- JNI_OnUnload, restricted to its effect on the hotplug globals: it calls
MacCoreaudio_freeHotplug. -/
def JNI_OnUnload (getEnvRes : GetEnvOutcome) (attachOk : Bool)
    (s : HotplugState) : HotplugState :=
  MacCoreaudio_freeHotplug getEnvRes attachOk s

/-- The joint-nullness invariant on the hotplug globals: the resolved class
and the resolved method identifier are both null or both non-null. -/
def hotplugGlobalsJoint (s : HotplugState) : Prop :=
  s.devicesChangedCallbackClass = s.devicesChangedCallbackMethodID

/-! ## DSManager::initCaptureDevices (DSManager.cpp, lines 70-221)

A candidate is one moniker returned with S_OK by monikerEnum->Next,
described by the outcomes of the fallible calls made on it inside the loop
body. -/

/-- One candidate capture device, as seen by the loop body. -/
structure Candidate where
  btoOk : Bool
  qiOk : Bool
  vfwNonnull : Bool
  btsOk : Bool
  nameOk : Bool
  pathOk : Bool
  initOk : Bool
  deriving DecidableEq, Repr

/-- A candidate takes the legacy capture-dialogs skip branch when
BindToObject succeeds, the IAMVfwCaptureDialogs QueryInterface succeeds,
and the returned interface pointer is non-null. -/
def Candidate.isLegacySkip (c : Candidate) : Bool :=
  c.btoOk && c.qiOk && c.vfwNonnull

/-- Per-candidate reference-count ledger for the loop body, plus whether a
record for the candidate was appended to m_devices. -/
structure CandTrace where
  monikerAcq : Nat
  monikerRel : Nat
  cpAcq : Nat
  cpRel : Nat
  vfwAcq : Nat
  vfwRel : Nat
  bagAcq : Nat
  bagRel : Nat
  emitted : Bool
  deriving DecidableEq, Repr

/-- The part of the loop body after the capture-dialogs probe block: the
BindToStorage branch, the two property reads with their early-continue
cleanup, record construction, and the trailing moniker release.  cpAcq
records whether the probe block acquired an IBaseFilter; on these paths the
probe block released neither cp nor any vfw interface (a vfw interface
exists only on the skip path). -/
def afterProbe (c : Candidate) (cpAcq : Nat) : CandTrace :=
  if c.btsOk then
    if c.nameOk = false then
      { monikerAcq := 1, monikerRel := 1, cpAcq := cpAcq, cpRel := 0
        vfwAcq := 0, vfwRel := 0, bagAcq := 1, bagRel := 1, emitted := false }
    else if c.pathOk = false then
      { monikerAcq := 1, monikerRel := 1, cpAcq := cpAcq, cpRel := 0
        vfwAcq := 0, vfwRel := 0, bagAcq := 1, bagRel := 1, emitted := false }
    else
      { monikerAcq := 1, monikerRel := 1, cpAcq := cpAcq, cpRel := 0
        vfwAcq := 0, vfwRel := 0, bagAcq := 1, bagRel := 1
        emitted := c.initOk }
  else
    { monikerAcq := 1, monikerRel := 1, cpAcq := cpAcq, cpRel := 0
      vfwAcq := 0, vfwRel := 0, bagAcq := 0, bagRel := 0, emitted := false }

/-- The body of the while loop of DSManager::initCaptureDevices for one
candidate.  On the legacy skip branch the code releases vfw and cp and
continues without releasing the moniker; when BindToObject succeeded but
the skip branch is not taken, cp goes out of scope without a Release. -/
def traceCandidate (c : Candidate) : CandTrace :=
  if c.btoOk then
    if c.qiOk then
      if c.vfwNonnull then
        { monikerAcq := 1, monikerRel := 0, cpAcq := 1, cpRel := 1
          vfwAcq := 1, vfwRel := 1, bagAcq := 0, bagRel := 0
          emitted := false }
      else
        afterProbe c 1
    else
      afterProbe c 1
  else
    afterProbe c 0

/-- The loop of initCaptureDevices: the records pushed onto m_devices, in
order; each record stands for the DSCaptureDevice built from its
candidate. -/
def enumLoop : List Candidate → List Candidate
  | [] => []
  | c :: rest =>
      if (traceCandidate c).emitted then c :: enumLoop rest
      else enumLoop rest

/-- Whole-run result of DSManager::initCaptureDevices: the reinitialization
prologue count, the function-scope enumerator ledgers, the per-candidate
traces in order, and the new device list. -/
structure InitRun where
  destroyedPrologue : Nat
  devEnumAcq : Nat
  devEnumRel : Nat
  monEnumAcq : Nat
  monEnumRel : Nat
  loop : List CandTrace
  result : List Candidate
  deriving DecidableEq, Repr

/-- DSManager::initCaptureDevices.  current is m_devices on entry;
coCreateOk is the CoCreateInstance outcome; monEnumOk is true when
CreateClassEnumerator neither failed nor returned S_FALSE; cands are the
monikers delivered by the enumerator. -/
def initCaptureDevices (current : List Candidate)
    (coCreateOk monEnumOk : Bool) (cands : List Candidate) : InitRun :=
  let destroyed := if current.length > 0 then current.length else 0
  if coCreateOk = false then
    { destroyedPrologue := destroyed, devEnumAcq := 0, devEnumRel := 0
      monEnumAcq := 0, monEnumRel := 0, loop := [], result := [] }
  else if monEnumOk = false then
    { destroyedPrologue := destroyed, devEnumAcq := 1, devEnumRel := 1
      monEnumAcq := 0, monEnumRel := 0, loop := [], result := [] }
  else
    { destroyedPrologue := destroyed, devEnumAcq := 1, devEnumRel := 1
      monEnumAcq := 1, monEnumRel := 1
      loop := cands.map traceCandidate
      result := enumLoop cands }

/-! ## DSManager constructor and destructor (DSManager.cpp, lines 25-63) -/

/-- The DSManager fields the claims are about: the device list and the
_coUninitialize flag. -/
structure DSManagerState where
  m_devices : List Candidate
  coUninitFlag : Bool
  deriving DecidableEq, Repr

/-- DSManager::DSManager.  When CoInitializeEx succeeds it runs
initCaptureDevices on the empty initial list; in every case it then sets
_coUninitialize = false (the comment in the source explains that the
destructor may run on a different thread). -/
def DSManager_construct (coInitOk coCreateOk monEnumOk : Bool)
    (cands : List Candidate) : DSManagerState :=
  if coInitOk then
    { m_devices := (initCaptureDevices [] coCreateOk monEnumOk cands).result
      coUninitFlag := false }
  else
    { m_devices := [], coUninitFlag := false }

/-- Observable effect of running the DSManager destructor. -/
structure DtorEffect where
  recordsDeleted : Nat
  coUninitializeCalls : Nat
  deriving DecidableEq, Repr

/-- DSManager::~DSManager: deletes every record of m_devices and calls
CoUninitialize exactly when _coUninitialize is set. -/
def DSManager_destruct (s : DSManagerState) : DtorEffect :=
  { recordsDeleted := s.m_devices.length
    coUninitializeCalls := if s.coUninitFlag then 1 else 0 }

/-! ## Predicates taken from the spec wording, for the refinement claims -/

/-- Spec wording: the candidate's friendly-name property reads
successfully (the property bag was obtained and the FriendlyName read
succeeded). -/
def Candidate.nameReads (c : Candidate) : Bool :=
  c.btsOk && c.nameOk

/-- Spec wording: the candidate's device-path property reads successfully
(the property bag was obtained and the DevicePath read succeeded). -/
def Candidate.pathReads (c : Candidate) : Bool :=
  c.btsOk && c.pathOk

/-- Spec wording: a surviving candidate is not a legacy-capture-dialog
device, both identity properties read successfully, and the native binding
initializes successfully. -/
def Candidate.surviving (c : Candidate) : Bool :=
  !c.isLegacySkip && c.nameReads && c.pathReads && c.initOk

/-! ## Claim theorems -/

/-- C1: the claim states that every reference-counted interface acquired
during DSManager::initCaptureDevices is released exactly once before the
function returns, on every exit path including the early-continue branches.
The code violates this: on a candidate whose BindToObject succeeds but whose
capture-dialogs QueryInterface fails, the acquired IBaseFilter is never
released; and on the legacy-skip continue branch the moniker acquired by
Next is never released.  This theorem evaluates the run at those two
failing inputs. -/
theorem C1_base_filter_and_moniker_leak :
    ((initCaptureDevices [] true true
        [{ btoOk := true, qiOk := false, vfwNonnull := false, btsOk := true,
           nameOk := true, pathOk := true, initOk := true }]).loop.map
        CandTrace.cpAcq = [1] ∧
     (initCaptureDevices [] true true
        [{ btoOk := true, qiOk := false, vfwNonnull := false, btsOk := true,
           nameOk := true, pathOk := true, initOk := true }]).loop.map
        CandTrace.cpRel = [0]) ∧
    ((initCaptureDevices [] true true
        [{ btoOk := true, qiOk := true, vfwNonnull := true, btsOk := true,
           nameOk := true, pathOk := true, initOk := true }]).loop.map
        CandTrace.monikerAcq = [1] ∧
     (initCaptureDevices [] true true
        [{ btoOk := true, qiOk := true, vfwNonnull := true, btsOk := true,
           nameOk := true, pathOk := true, initOk := true }]).loop.map
        CandTrace.monikerRel = [0]) := by
  decide

/-- C2: the claim states that both diagnostic forwarders become silent
no-ops when the managed class or the log method cannot be resolved and
never invoke a managed entry point with a null method identifier.
JavaLogger::log satisfies this, but MacCoreaudio_log does not: when
FindClass succeeds and GetStaticMethodID returns null, the code still
executes CallStaticVoidMethod with the null method id. -/
theorem C2_mac_log_invokes_with_null_method_id (getClassOk getMethodOk : Bool) :
    (JavaLogger_log getClassOk getMethodOk).nullMethodID = false ∧
    (MacCoreaudio_log .jniOk true true false).invoked = true ∧
    (MacCoreaudio_log .jniOk true true false).nullMethodID = true := by
  cases getClassOk <;> cases getMethodOk <;> decide

/-- C3 counterexample: the claim states that a DSManager whose construction
succeeded in CoInitializeEx calls CoUninitialize exactly once on
destruction.  At the concrete input (successful CoInitializeEx, successful
enumerator creation, no candidates) the destructor performs zero
CoUninitialize calls, because the constructor unconditionally set
_coUninitialize to false. -/
theorem C3_counterexample :
    ¬ (DSManager_destruct
        (DSManager_construct true true true [])).coUninitializeCalls = 1 := by
  decide

/-- C3 (amended): destruction of a DSManager never calls CoUninitialize,
whether or not CoInitializeEx succeeded, because the constructor always
leaves _coUninitialize false. -/
theorem C3_destructor_never_balances_com (coInitOk coCreateOk monEnumOk : Bool)
    (cands : List Candidate) :
    (DSManager_destruct
        (DSManager_construct coInitOk coCreateOk monEnumOk
          cands)).coUninitializeCalls = 0 := by
  cases coInitOk <;> simp [DSManager_construct, DSManager_destruct]

/-- C4: a guarded ATTACH/DETACH crossing on a thread that already holds a
valid context on entry (GetEnv answers JNI_OK) leaves the thread attached
after the bracket, and the DETACH condition (shouldDetach) holds exactly
when this expansion of ATTACH itself performed the attach. -/
theorem C4_guard_detach_discipline (getEnvRes : GetEnvOutcome)
    (attachOk : Bool) :
    guardBracket true .jniOk attachOk = true ∧
    (ATTACH getEnvRes attachOk).shouldDetach
      = (ATTACH getEnvRes attachOk).performedAttach := by
  cases getEnvRes <;> cases attachOk <;> decide

/-- C5: with a runtime context available, MacCoreaudio_callbackMethod
invokes the managed callback and unconditionally copies the managed
buffer's final contents back over the native buffer, so the native buffer
equals whatever the callback left in the managed buffer: the original bytes
if the callback left it unmodified, the written pattern otherwise. -/
theorem C5_callback_copyback (getEnvRes : GetEnvOutcome) (attachOk : Bool)
    (buffer : List Int) (cb : List Int → List Int)
    (hEnv : (ATTACH getEnvRes attachOk).env = true)
    (hLen : (cb buffer).length = buffer.length) :
    MacCoreaudio_callbackMethod getEnvRes attachOk buffer cb
      = (cb buffer, true) := by
  simp [MacCoreaudio_callbackMethod, hEnv, List.take_of_length_le hLen.le]

/-- C5 witness: a concrete relay on an attached thread with a callback that
overwrites the two-byte managed buffer with zeros ends with the native
buffer equal to that zero pattern. -/
theorem C5_callback_copyback_witness :
    MacCoreaudio_callbackMethod .jniOk true [3, 5] (fun l => l.map (fun _ => 0))
      = ([0, 0], true) :=
  C5_callback_copyback .jniOk true [3, 5] (fun l => l.map (fun _ => 0)) rfl rfl

/-- C6: when the thread is not attached and attaching fails,
MacCoreaudio_callbackMethod returns without invoking the managed callback
and without modifying the native buffer. -/
theorem C6_callback_noop_when_unattached (buffer : List Int)
    (cb : List Int → List Int) :
    MacCoreaudio_callbackMethod .jniEdetached false buffer cb
      = (buffer, false) := rfl

/-- C7: once the hotplug globals are both resolved, a further call to
MacCoreaudio_initHotplug changes nothing (no FindClass attempt, no second
registration with the native subsystem); and two calls starting from the
load-time state, the first of which succeeds, perform exactly one FindClass
resolution and exactly one registration in total. -/
theorem C7_hotplug_idempotent (getEnvRes : GetEnvOutcome)
    (attachOk findClassOk globalRefOk getMethodOk : Bool) (s : HotplugState)
    (hc : s.devicesChangedCallbackClass = true)
    (hm : s.devicesChangedCallbackMethodID = true) :
    MacCoreaudio_initHotplug getEnvRes attachOk findClassOk globalRefOk
        getMethodOk s = s ∧
    (MacCoreaudio_initHotplug getEnvRes attachOk findClassOk globalRefOk
        getMethodOk
        (MacCoreaudio_initHotplug .jniOk true true true true
          hotplugStateAtLoad)).findClassCalls = 1 ∧
    (MacCoreaudio_initHotplug getEnvRes attachOk findClassOk globalRefOk
        getMethodOk
        (MacCoreaudio_initHotplug .jniOk true true true true
          hotplugStateAtLoad)).registrations = 1 := by
  refine ⟨?_, ?_, ?_⟩
  · simp [MacCoreaudio_initHotplug, hc, hm]
  · cases getEnvRes <;> cases attachOk <;> cases findClassOk <;>
      cases globalRefOk <;> cases getMethodOk <;> decide
  · cases getEnvRes <;> cases attachOk <;> cases findClassOk <;>
      cases globalRefOk <;> cases getMethodOk <;> decide

/-- C7 witness: concrete instantiation at a state with both globals
resolved and both counters at one. -/
theorem C7_hotplug_idempotent_witness :
    MacCoreaudio_initHotplug .jniOk true true true true
        { devicesChangedCallbackClass := true
          devicesChangedCallbackMethodID := true
          findClassCalls := 1, registrations := 1 }
      = { devicesChangedCallbackClass := true
          devicesChangedCallbackMethodID := true
          findClassCalls := 1, registrations := 1 } ∧
    (MacCoreaudio_initHotplug .jniOk true true true true
        (MacCoreaudio_initHotplug .jniOk true true true true
          hotplugStateAtLoad)).findClassCalls = 1 ∧
    (MacCoreaudio_initHotplug .jniOk true true true true
        (MacCoreaudio_initHotplug .jniOk true true true true
          hotplugStateAtLoad)).registrations = 1 :=
  C7_hotplug_idempotent .jniOk true true true true
    { devicesChangedCallbackClass := true
      devicesChangedCallbackMethodID := true
      findClassCalls := 1, registrations := 1 } rfl rfl

/-- Helper for C8: the loop body emits a record exactly for the surviving
candidates in the sense of the spec wording. -/
theorem traceCandidate_emitted_eq (c : Candidate) :
    (traceCandidate c).emitted = c.surviving := by
  rcases c with ⟨b1, b2, b3, b4, b5, b6, b7⟩
  cases b1 <;> cases b2 <;> cases b3 <;> cases b4 <;> cases b5 <;>
    cases b6 <;> cases b7 <;> rfl

/-- C8: the enumeration loop returns exactly the candidates that are not
legacy-capture-dialog devices, whose friendly-name and device-path
properties both read successfully, and whose native binding initializes
successfully, in their original relative order; in particular a list of one
legacy-capability device between two normal devices yields exactly the two
normal devices in order. -/
theorem C8_enumerate_filtering (cands : List Candidate) :
    enumLoop cands = cands.filter Candidate.surviving ∧
    enumLoop
        [{ btoOk := false, qiOk := false, vfwNonnull := false, btsOk := true,
           nameOk := true, pathOk := true, initOk := true },
         { btoOk := true, qiOk := true, vfwNonnull := true, btsOk := true,
           nameOk := true, pathOk := true, initOk := true },
         { btoOk := true, qiOk := false, vfwNonnull := false, btsOk := true,
           nameOk := true, pathOk := true, initOk := true }]
      = [{ btoOk := false, qiOk := false, vfwNonnull := false, btsOk := true,
           nameOk := true, pathOk := true, initOk := true },
         { btoOk := true, qiOk := false, vfwNonnull := false, btsOk := true,
           nameOk := true, pathOk := true, initOk := true }] := by
  constructor
  · induction cands with
    | nil => rfl
    | cons c rest ih =>
        simp [enumLoop, List.filter_cons, traceCandidate_emitted_eq, ih]
  · decide

/-- C9: the reinitialization prologue of DSManager::initCaptureDevices
destroys exactly the records of the current list, is a no-op exactly when
that list is empty, and the rebuilt result never depends on the previous
list, so a call on an empty list behaves like a first initialization. -/
theorem C9_reinit_prologue (current : List Candidate)
    (coCreateOk monEnumOk : Bool) (cands : List Candidate) :
    (initCaptureDevices current coCreateOk monEnumOk cands).destroyedPrologue
        = current.length ∧
    ((initCaptureDevices current coCreateOk monEnumOk
        cands).destroyedPrologue = 0 ↔ current = []) ∧
    (initCaptureDevices current coCreateOk monEnumOk cands).result
      = (initCaptureDevices [] coCreateOk monEnumOk cands).result := by
  cases coCreateOk <;> cases monEnumOk <;>
    rcases current with _ | ⟨c, cur⟩ <;> simp [initCaptureDevices]

/-- C10: the joint-nullness invariant on the two hotplug globals is
preserved by MacCoreaudio_initHotplug, MacCoreaudio_freeHotplug, JNI_OnLoad
and JNI_OnUnload, holds in the load-time state, and under it the
device-change handler's joint null check sees both fields resolved or
neither. -/
theorem C10_globals_joint_invariant (getEnvRes : GetEnvOutcome)
    (attachOk findClassOk globalRefOk getMethodOk : Bool) (s : HotplugState)
    (h : hotplugGlobalsJoint s) :
    hotplugGlobalsJoint
        (MacCoreaudio_initHotplug getEnvRes attachOk findClassOk globalRefOk
          getMethodOk s) ∧
    hotplugGlobalsJoint (MacCoreaudio_freeHotplug getEnvRes attachOk s) ∧
    hotplugGlobalsJoint
        (JNI_OnLoad getEnvRes attachOk findClassOk globalRefOk getMethodOk
          s) ∧
    hotplugGlobalsJoint (JNI_OnUnload getEnvRes attachOk s) ∧
    hotplugGlobalsJoint hotplugStateAtLoad ∧
    ((s.devicesChangedCallbackClass = true
        ∧ s.devicesChangedCallbackMethodID = true)
      ∨ (s.devicesChangedCallbackClass = false
        ∧ s.devicesChangedCallbackMethodID = false)) := by
  rcases s with ⟨c, m, fc, r⟩
  simp only [hotplugGlobalsJoint] at h
  subst h
  cases c <;> cases getEnvRes <;> cases attachOk <;> cases findClassOk <;>
    cases globalRefOk <;> cases getMethodOk <;>
    simp [MacCoreaudio_initHotplug, MacCoreaudio_freeHotplug, JNI_OnLoad,
      JNI_OnUnload, hotplugGlobalsJoint, hotplugStateAtLoad, ATTACH]

/-- C10 witness: concrete instantiation at the load-time state. -/
theorem C10_globals_joint_invariant_witness :
    hotplugGlobalsJoint
        (MacCoreaudio_initHotplug .jniOk true true true true
          hotplugStateAtLoad) ∧
    hotplugGlobalsJoint (MacCoreaudio_freeHotplug .jniOk true
        hotplugStateAtLoad) ∧
    hotplugGlobalsJoint
        (JNI_OnLoad .jniOk true true true true hotplugStateAtLoad) ∧
    hotplugGlobalsJoint (JNI_OnUnload .jniOk true hotplugStateAtLoad) ∧
    hotplugGlobalsJoint hotplugStateAtLoad ∧
    ((hotplugStateAtLoad.devicesChangedCallbackClass = true
        ∧ hotplugStateAtLoad.devicesChangedCallbackMethodID = true)
      ∨ (hotplugStateAtLoad.devicesChangedCallbackClass = false
        ∧ hotplugStateAtLoad.devicesChangedCallbackMethodID = false)) :=
  C10_globals_joint_invariant .jniOk true true true true hotplugStateAtLoad
    rfl
